import Mathlib

/-!
Verification of the OAuth/usage-monitoring core of `claude-applet`
(src/claude.rs, src/claude_monitor.rs, src/app.rs), shallowly embedded
in Lean 4.  JSON response bodies are modelled at the document level
(an AST), standing for the `serde_json` value a body parses to; the
structures and functions mirror the Rust source field-for-field.
-/

/-- A JSON document, the model of a parsed `serde_json` value.
Objects keep their fields in order; `serde` field access is by name. -/
inductive JsonVal where
  | null
  | bool (b : Bool)
  | num (q : ℚ)
  | str (s : String)
  | arr (elems : List JsonVal)
  | obj (fields : List (String × JsonVal))

namespace JsonVal

/-- Look a field up in an object (first occurrence, as serde reads it). -/
def getField : JsonVal → String → Option JsonVal
  | .obj fields, key => fields.lookup key
  | _, _ => none

end JsonVal

/-! ## Data model (src/claude.rs, structs) -/

/-- Constant for the Claude API error handler (src/claude.rs line 22). -/
def ANTHROPIC_ERROR_AUTH_EXPIRED : String := "OAuth token has expired"

/-- Wrapper for the OAuth credentials of Claude AI (src/claude.rs). -/
structure ClaudeCredentials where
  access_token : String
  refresh_token : String
  deriving DecidableEq, Repr

/-- Error details structure for Claude API error responses (src/claude.rs). -/
structure ErrorDetails where
  error_visibility : String
  deriving DecidableEq, Repr

/-- Error structure for Claude API error responses; the `type` JSON field
is renamed to `error_type` by the serde attribute (src/claude.rs). -/
structure ApiError where
  error_type : String
  message : String
  details : ErrorDetails
  deriving DecidableEq, Repr

/-- Top-level error response from the Claude API (src/claude.rs). -/
structure ClaudeErrorResponse where
  response_type : String
  error : ApiError
  request_id : String
  deriving DecidableEq, Repr

/-- Usage period of an account; `utilization` is an `f32` in the source,
modelled as the rational the JSON number denotes (none of the verified
claims performs floating-point arithmetic on it). -/
structure UsagePeriod where
  utilization : ℚ
  resets_at : Option String
  deriving DecidableEq, Repr

/-- Part of the response of the Claude API usage endpoint (src/claude.rs). -/
structure ExtraUsage where
  is_enabled : Bool
  monthly_limit : Option ℕ
  used_credits : Option ℕ
  utilization : Option ℚ
  deriving DecidableEq, Repr

/-- The full response of the Claude API usage endpoint (src/claude.rs).
`five_hour`, `seven_day` and `extra_usage` are required fields; the five
remaining sub-category windows are `Option` in the source. -/
structure ClaudeUsageResponse where
  five_hour : UsagePeriod
  seven_day : UsagePeriod
  seven_day_oauth_apps : Option UsagePeriod
  seven_day_opus : Option UsagePeriod
  seven_day_sonnet : Option UsagePeriod
  iguana_necktie : Option UsagePeriod
  seven_day_iguana_necktie : Option UsagePeriod
  extra_usage : ExtraUsage
  deriving DecidableEq, Repr

/-- Organization identity inside a token response (src/claude.rs). -/
structure Organization where
  uuid : String
  name : String
  deriving DecidableEq, Repr

/-- Account identity inside a token response (src/claude.rs). -/
structure Account where
  uuid : String
  email_address : String
  deriving DecidableEq, Repr

/-- Token-endpoint response; `expires_in` is a `u64` in the source,
modelled as ℕ (src/claude.rs). -/
structure AnthropicTokenResponse where
  access_token : String
  refresh_token : String
  expires_in : ℕ
  token_type : String
  organization : Organization
  account : Account
  deriving DecidableEq, Repr

/-- Error type returned by `get_usage` (src/claude.rs): a human-readable
message plus, when the body parsed as an error envelope, that envelope. -/
structure GetUsageError where
  message : String
  antropic_error_response : Option ClaudeErrorResponse
  deriving DecidableEq, Repr

/-! ## serde_json deserialization, modelled at the document level

Each `deserialize…` function models `serde_json::from_str::<T>` applied to a
body whose parsed document is the given `JsonVal`: a derived serde struct
requires a JSON object, fails when a required field is missing or has the
wrong shape, maps a missing or `null` `Option` field to `none`, and ignores
unknown fields. -/

/-- A required serde field: missing or unparseable value fails. -/
def reqField (fields : List (String × JsonVal)) (key : String)
    (p : JsonVal → Option α) : Option α :=
  fields.lookup key >>= p

/-- An `Option<T>` serde field: absent or `null` gives `none`; a present
non-null value must parse as `T`. -/
def optField (fields : List (String × JsonVal)) (key : String)
    (p : JsonVal → Option α) : Option (Option α) :=
  match fields.lookup key with
  | none => some none
  | some .null => some none
  | some v => (p v).map some

/-- serde deserialization of a Rust `String` from a JSON value. -/
def asString : JsonVal → Option String
  | .str s => some s
  | _ => none

/-- serde deserialization of a Rust `bool` from a JSON value. -/
def asBool : JsonVal → Option Bool
  | .bool b => some b
  | _ => none

/-- serde deserialization of an `f32` field from a JSON value: any JSON
number is accepted (modelled as the rational it denotes). -/
def asNumber : JsonVal → Option ℚ
  | .num q => some q
  | _ => none

/-- serde deserialization of a `u64` from a JSON value: a non-negative
integer below 2^64. -/
def asU64 : JsonVal → Option ℕ
  | .num q => if q.den = 1 ∧ 0 ≤ q.num ∧ q.num < 2 ^ 64 then some q.num.toNat else none
  | _ => none

/-- `serde_json::from_str::<UsagePeriod>` on a parsed document. -/
def deserializeUsagePeriod : JsonVal → Option UsagePeriod
  | .obj fields => do
      let u ← reqField fields "utilization" asNumber
      let r ← optField fields "resets_at" asString
      pure ⟨u, r⟩
  | _ => none

/-- `serde_json::from_str::<ExtraUsage>` on a parsed document. -/
def deserializeExtraUsage : JsonVal → Option ExtraUsage
  | .obj fields => do
      let e ← reqField fields "is_enabled" asBool
      let m ← optField fields "monthly_limit" asU64
      let c ← optField fields "used_credits" asU64
      let u ← optField fields "utilization" asNumber
      pure ⟨e, m, c, u⟩
  | _ => none

/-- `serde_json::from_str::<ClaudeUsageResponse>` on a parsed document. -/
def deserializeClaudeUsageResponse : JsonVal → Option ClaudeUsageResponse
  | .obj fields => do
      let fh ← reqField fields "five_hour" deserializeUsagePeriod
      let sd ← reqField fields "seven_day" deserializeUsagePeriod
      let oa ← optField fields "seven_day_oauth_apps" deserializeUsagePeriod
      let op ← optField fields "seven_day_opus" deserializeUsagePeriod
      let so ← optField fields "seven_day_sonnet" deserializeUsagePeriod
      let ig ← optField fields "iguana_necktie" deserializeUsagePeriod
      let si ← optField fields "seven_day_iguana_necktie" deserializeUsagePeriod
      let ex ← reqField fields "extra_usage" deserializeExtraUsage
      pure ⟨fh, sd, oa, op, so, ig, si, ex⟩
  | _ => none

/-- `serde_json::from_str::<ErrorDetails>` on a parsed document. -/
def deserializeErrorDetails : JsonVal → Option ErrorDetails
  | .obj fields => do
      let v ← reqField fields "error_visibility" asString
      pure ⟨v⟩
  | _ => none

/-- `serde_json::from_str::<ApiError>` on a parsed document; the JSON field
`type` maps to `error_type` (serde rename). -/
def deserializeApiError : JsonVal → Option ApiError
  | .obj fields => do
      let t ← reqField fields "type" asString
      let m ← reqField fields "message" asString
      let d ← reqField fields "details" deserializeErrorDetails
      pure ⟨t, m, d⟩
  | _ => none

/-- `serde_json::from_str::<ClaudeErrorResponse>` on a parsed document; the
JSON field `type` maps to `response_type` (serde rename). -/
def deserializeClaudeErrorResponse : JsonVal → Option ClaudeErrorResponse
  | .obj fields => do
      let t ← reqField fields "type" asString
      let e ← reqField fields "error" deserializeApiError
      let r ← reqField fields "request_id" asString
      pure ⟨t, e, r⟩
  | _ => none

/-- `serde_json::from_str::<ClaudeCredentials>` on a parsed document. -/
def deserializeClaudeCredentials : JsonVal → Option ClaudeCredentials
  | .obj fields => do
      let a ← reqField fields "access_token" asString
      let r ← reqField fields "refresh_token" asString
      pure ⟨a, r⟩
  | _ => none

/-- serde serialization of `ClaudeCredentials` (the document that
`serde_json::to_string_pretty` renders in `save_credentials_locally`). -/
def serializeClaudeCredentials (c : ClaudeCredentials) : JsonVal :=
  .obj [("access_token", .str c.access_token), ("refresh_token", .str c.refresh_token)]

/-! ## Rendering a document back to text

`get_usage` embeds the raw response text into the `Unexpected`-style message.
In the document-level model the raw text of a body is its rendering. -/

/-- JSON string escaping for the common escapes (quote, backslash,
newline, tab, carriage return). -/
def escapeJsonString (s : String) : String :=
  s.data.foldl (fun acc c =>
    acc ++ (if c = '"' then "\\\""
      else if c = '\\' then "\\\\"
      else if c = '\n' then "\\n"
      else if c = '\t' then "\\t"
      else if c = '\r' then "\\r"
      else String.singleton c)) ""

mutual

/-- Render a JSON document compactly (the model of the raw body text). -/
def JsonVal.render : JsonVal → String
  | .null => "null"
  | .bool b => if b then "true" else "false"
  | .num q => toString q
  | .str s => "\"" ++ escapeJsonString s ++ "\""
  | .arr elems => "[" ++ JsonVal.renderElems elems ++ "]"
  | .obj fields => "\x7b" ++ JsonVal.renderFields fields ++ "\x7d"

/-- Render the comma-separated elements of a JSON array. -/
def JsonVal.renderElems : List JsonVal → String
  | [] => ""
  | [e] => e.render
  | e :: rest => e.render ++ "," ++ JsonVal.renderElems rest

/-- Render the comma-separated fields of a JSON object. -/
def JsonVal.renderFields : List (String × JsonVal) → String
  | [] => ""
  | [(k, v)] => "\"" ++ escapeJsonString k ++ "\":" ++ v.render
  | (k, v) :: rest =>
      "\"" ++ escapeJsonString k ++ "\":" ++ v.render ++ "," ++ JsonVal.renderFields rest

end

/-- Scan for the first occurrence of `needle`; on a hit, the characters
after it. -/
def findSub (hay needle : List Char) : Option (List Char) :=
  if needle.isPrefixOf hay then some (hay.drop needle.length)
  else
    match hay with
    | [] => none
    | _ :: t => findSub t needle

/-- Rust `str::contains` for a substring needle. -/
def strContains (hay needle : String) : Bool :=
  (findSub hay.data needle.data).isSome

/-! ## Usage Client (src/claude.rs, get_usage)

The transport phase of `get_usage` (building the request, reading the body)
is I/O; the verified part is the classification of the body text once read.
`get_usage_classify` is that classification: it receives the HTTP status and
the parsed body document.  The source only logs the status; classification
reads the body alone. -/

/-- The message `get_usage` formats for a parsed error envelope
(src/claude.rs lines 296-304). -/
def api_error_message (error_response : ClaudeErrorResponse) : String :=
  "api error (" ++ error_response.error.error_type ++ "): "
    ++ error_response.error.message ++ " [request_id: "
    ++ error_response.request_id ++ "]"

/-- The message of the no-envelope fallback of `get_usage`
(src/claude.rs line 308). -/
def unexpected_format_message (body : JsonVal) : String :=
  "unexpected api response format: " ++ body.render

/-- The body-classification phase of `get_usage` (src/claude.rs lines
280-310): try the success shape first, then the error envelope, else report
the raw body.  `status` is received (the code logs it) but never branches
the result. -/
def get_usage_classify (status : ℕ) (body : JsonVal) :
    Except GetUsageError ClaudeUsageResponse :=
  -- the source logs `status` and `response_text` here, with no effect on the value
  let _ := status
  match deserializeClaudeUsageResponse body with
  | some usage => .ok usage
  | none =>
    match deserializeClaudeErrorResponse body with
    | some error_response =>
        .error ⟨api_error_message error_response, some error_response⟩
    | none =>
        .error ⟨unexpected_format_message body, none⟩

/-! ## Callback Receiver (src/claude.rs, wait_for_oauth_callback)

The TCP accept/read is I/O; the verified part is the processing of the
request text read from the socket.  `extract_param_from_url` lives in
src/utils.rs, which is not part of the provided sources, so it is modelled
from the spec. -/

/-- Modelled from the spec: `extract_param_from_url` (crate::utils, source
file not provided).  The spec says the Callback Receiver "extracts `state`
and `code` query parameters from the request path", and that a missing
parameter is an error: the value of `param` is the text after `param=` up
to the next `&` or whitespace, and a request without `param=` fails. -/
def extract_param_from_url (request param : String) : Except String String :=
  match findSub request.data (param ++ "=").data with
  | some rest =>
      .ok (String.mk (rest.takeWhile fun c =>
        c != '&' && c != ' ' && c != '\r' && c != '\n'))
  | none => .error ("could not find parameter " ++ param)

/-- The fixed success response written back to the browser
(src/claude.rs line 164). -/
def oauthSuccessResponse : String :=
  "HTTP/1.1 200 OK\r\nContent-Type: text/html\r\n\r\n<html><body><h1>Success</h1></body></html>"

/-- Decidable equality for `Except`, used to evaluate outcomes. -/
instance [DecidableEq ε] [DecidableEq α] : DecidableEq (Except ε α) := fun a b =>
  match a, b with
  | .error x, .error y => decidable_of_iff (x = y) (by simp)
  | .error _, .ok _ => isFalse (by simp)
  | .ok _, .error _ => isFalse (by simp)
  | .ok x, .ok y => decidable_of_iff (x = y) (by simp)

/-- Outcome of one callback: the returned value and the HTTP responses
written to the connection, in order. -/
structure CallbackOutcome where
  result : Except String String
  written : List String
  deriving DecidableEq, Repr

/-- The request-processing phase of `wait_for_oauth_callback`
(src/claude.rs lines 154-170): extract `state`, compare with the expected
state, extract `code`, write the success response, return the code.
`request` is the text read from the accepted connection. -/
def wait_for_oauth_callback (expected_state request : String) : CallbackOutcome :=
  match extract_param_from_url request "state" with
  | .error e => ⟨.error e, []⟩
  | .ok received_state =>
    if received_state != expected_state then
      ⟨.error "state value is not the same", []⟩
    else
      match extract_param_from_url request "code" with
      | .error e => ⟨.error e, []⟩
      | .ok code => ⟨.ok code, [oauthSuccessResponse]⟩

/-! ## Credential Store (src/claude.rs, save/load)

The file system is modelled as the optional content of the single
credentials file (a JSON document, standing for the text serde renders and
re-parses) plus whether `$HOME` is set. -/

/-- Model of the environment and file system the credential store touches. -/
structure FsState where
  home : Option String
  credentials_file : Option JsonVal

/-- `get_local_credentials` (src/claude.rs lines 315-333): resolve `$HOME`,
read the credentials file, deserialize. -/
def get_local_credentials (fs : FsState) : Except String ClaudeCredentials :=
  match fs.home with
  | none => .error "home environment variable not set"
  | some _ =>
    match fs.credentials_file with
    | none => .error "failed to read credentials file"
    | some doc =>
      match deserializeClaudeCredentials doc with
      | some credentials => .ok credentials
      | none => .error "error getting credentials"

/-- `save_credentials_locally` (src/claude.rs lines 336-367): resolve
`$HOME`, create the config directory if absent (a no-op on the modelled
state), project the token response to a `ClaudeCredentials`, serialize and
write it, overwriting previous content. -/
def save_credentials_locally (credentials : AnthropicTokenResponse)
    (fs : FsState) : Except String FsState :=
  match fs.home with
  | none => .error "home environment variable not set"
  | some _ =>
    let credentials_json : ClaudeCredentials :=
      ⟨credentials.access_token, credentials.refresh_token⟩
    .ok { fs with credentials_file := some (serializeClaudeCredentials credentials_json) }

/-! ## Monitoring Loop (src/claude_monitor.rs) -/

/-- The messages of src/app.rs (`enum Message`); window ids are ℕ. -/
inductive AppMessage where
  | togglePopup
  | popupClosed (id : ℕ)
  | loginClicked
  | loginCompleted (t : AnthropicTokenResponse)
  | updateUsage (u : ClaudeUsageResponse)
  | refreshToken
  | refreshTokenCompleted (t : AnthropicTokenResponse)
  | getLocalCredentials
  | throwError (msg : String)
  deriving DecidableEq, Repr

/-- What the body of a Rust `loop` does at the end of an iteration:
`claude_usage_monitoring`'s loop body has no `break` or `return`. -/
inductive LoopControl where
  | cont
  | brk
  deriving DecidableEq, Repr

/-- Observable effect of one iteration of the monitoring loop: messages
sent on the outbound channel, error envelopes printed to stdout by the
`println!` debug statement, seconds slept, and whether the loop continues. -/
structure MonitorStepResult where
  sent : List AppMessage
  printed : List ClaudeErrorResponse
  sleep_seconds : ℕ
  control : LoopControl
  deriving DecidableEq, Repr

/-- One iteration of `claude_usage_monitoring` (src/claude_monitor.rs lines
7-38), given the result of this poll's `get_usage` call: on success send
`UpdateUsage`; on failure, when the envelope's message contains the
expired-token marker, print the envelope to stdout, and in every failure
case send `ThrowError` with the message; then sleep 300 seconds and loop. -/
def claude_monitor_step (r : Except GetUsageError ClaudeUsageResponse) :
    MonitorStepResult :=
  match r with
  | .ok usage => ⟨[.updateUsage usage], [], 300, .cont⟩
  | .error error =>
    let printed : List ClaudeErrorResponse :=
      match error.antropic_error_response with
      | some resp =>
          if strContains resp.error.message ANTHROPIC_ERROR_AUTH_EXPIRED
          then [resp] else []
      | none => []
    ⟨[.throwError error.message], printed, 300, .cont⟩

/-- The whole monitoring loop as an infinite trace: `results n` is what
`get_usage` returns on the n-th poll; the n-th iteration's effect is
`claude_monitor_step` of it.  Totality in `n` is the model of the loop
never terminating. -/
def claude_usage_monitoring
    (results : ℕ → Except GetUsageError ClaudeUsageResponse) :
    ℕ → MonitorStepResult :=
  fun n => claude_monitor_step (results n)

/-! ## PKCE Generator (src/claude.rs, generate_code_challenge)

`generate_code_challenge` feeds the verifier's bytes to a SHA-256 hasher
and base64url-encodes the digest without padding.  SHA-256 (FIPS 180-4) and
the URL-safe base64 engine are embedded below over ℕ bytes and 32-bit words
(arithmetic mod 2^32). -/

/-- Truncate to a 32-bit word. -/
def w32 (n : ℕ) : ℕ := n % 2 ^ 32

/-- Rotate a 32-bit word right by `k`. -/
def rotr32 (k x : ℕ) : ℕ := w32 (x / 2 ^ k + x % 2 ^ k * 2 ^ (32 - k))

/-- Shift a 32-bit word right by `k`. -/
def shr32 (k x : ℕ) : ℕ := x / 2 ^ k

/-- Bitwise complement of a 32-bit word. -/
def not32 (x : ℕ) : ℕ := x ^^^ (2 ^ 32 - 1)

/-- SHA-256 choose function. -/
def sha2Ch (e f g : ℕ) : ℕ := (e &&& f) ^^^ (not32 e &&& g)

/-- SHA-256 majority function. -/
def sha2Maj (a b c : ℕ) : ℕ := (a &&& b) ^^^ (a &&& c) ^^^ (b &&& c)

/-- SHA-256 Σ0. -/
def bigSigma0 (x : ℕ) : ℕ := rotr32 2 x ^^^ rotr32 13 x ^^^ rotr32 22 x

/-- SHA-256 Σ1. -/
def bigSigma1 (x : ℕ) : ℕ := rotr32 6 x ^^^ rotr32 11 x ^^^ rotr32 25 x

/-- SHA-256 σ0. -/
def smallSigma0 (x : ℕ) : ℕ := rotr32 7 x ^^^ rotr32 18 x ^^^ shr32 3 x

/-- SHA-256 σ1. -/
def smallSigma1 (x : ℕ) : ℕ := rotr32 17 x ^^^ rotr32 19 x ^^^ shr32 10 x

/-- The 64 SHA-256 round constants. -/
def K256 : List ℕ :=
  [1116352408, 1899447441, 3049323471, 3921009573, 961987163,
   1508970993, 2453635748, 2870763221, 3624381080, 310598401,
   607225278, 1426881987, 1925078388, 2162078206, 2614888103,
   3248222580, 3835390401, 4022224774, 264347078, 604807628,
   770255983, 1249150122, 1555081692, 1996064986, 2554220882,
   2821834349, 2952996808, 3210313671, 3336571891, 3584528711,
   113926993, 338241895, 666307205, 773529912, 1294757372,
   1396182291, 1695183700, 1986661051, 2177026350, 2456956037,
   2730485921, 2820302411, 3259730800, 3345764771, 3516065817,
   3600352804, 4094571909, 275423344, 430227734, 506948616,
   659060556, 883997877, 958139571, 1322822218, 1537002063,
   1747873779, 1955562222, 2024104815, 2227730452, 2361852424,
   2428436474, 2756734187, 3204031479, 3329325298]

/-- The SHA-256 initial hash value. -/
def H256 : List ℕ :=
  [1779033703, 3144134277, 1013904242, 2773480762,
   1359893119, 2600822924, 528734635, 1541459225]

/-- Big-endian bytes of a 64-bit length. -/
def be64 (n : ℕ) : List ℕ :=
  (List.range 8).map fun i => n / 2 ^ (8 * (7 - i)) % 256

/-- Big-endian bytes of a 32-bit word. -/
def be32 (n : ℕ) : List ℕ :=
  (List.range 4).map fun i => n / 2 ^ (8 * (3 - i)) % 256

/-- SHA-256 padding: append 0x80, zeros to 56 mod 64, and the bit length. -/
def sha256Pad (msg : List ℕ) : List ℕ :=
  let zeros := (64 - (msg.length + 9) % 64) % 64
  msg ++ [0x80] ++ List.replicate zeros 0 ++ be64 (8 * msg.length)

/-- Split a byte list into 64-byte blocks; the fuel (an upper bound on the
number of blocks, structurally decreasing) keeps the recursion kernel-
reducible. -/
def chunks64Aux : ℕ → List ℕ → List (List ℕ)
  | 0, _ => []
  | _, [] => []
  | fuel + 1, l => l.take 64 :: chunks64Aux fuel (l.drop 64)

/-- Split a byte list into 64-byte blocks. -/
def chunks64 (l : List ℕ) : List (List ℕ) :=
  chunks64Aux l.length l

/-- Group bytes into big-endian 32-bit words. -/
def bytesToWords : List ℕ → List ℕ
  | b0 :: b1 :: b2 :: b3 :: rest =>
      (b0 * 2 ^ 24 + b1 * 2 ^ 16 + b2 * 2 ^ 8 + b3) :: bytesToWords rest
  | _ => []

/-- Extend the schedule by one word from the last sixteen. -/
def scheduleStep (ws : List ℕ) : List ℕ :=
  let n := ws.length
  ws ++ [w32 (smallSigma1 (ws.getD (n - 2) 0) + ws.getD (n - 7) 0
    + smallSigma0 (ws.getD (n - 15) 0) + ws.getD (n - 16) 0)]

/-- The 64-entry message schedule from a block's sixteen words. -/
def schedule (first16 : List ℕ) : List ℕ :=
  (List.range 48).foldl (fun ws _ => scheduleStep ws) first16

/-- One SHA-256 compression round on the eight-word state. -/
def compressRound (st : List ℕ) (wk : ℕ × ℕ) : List ℕ :=
  match st with
  | [a, b, c, d, e, f, g, h] =>
      let t1 := w32 (h + bigSigma1 e + sha2Ch e f g + wk.2 + wk.1)
      let t2 := w32 (bigSigma0 a + sha2Maj a b c)
      [w32 (t1 + t2), a, b, c, w32 (d + t1), e, f, g]
  | _ => st

/-- Process one 64-byte block into the running hash. -/
def processChunk (h : List ℕ) (chunk : List ℕ) : List ℕ :=
  let ws := schedule (bytesToWords chunk)
  let st := (ws.zip K256).foldl compressRound h
  (h.zip st).map fun p => w32 (p.1 + p.2)

/-- SHA-256 digest (32 bytes) of a byte message. -/
def sha256 (msg : List ℕ) : List ℕ :=
  (((chunks64 (sha256Pad msg)).foldl processChunk H256).map be32).flatten

/-- The URL-safe base64 alphabet. -/
def base64UrlAlphabet : List Char :=
  "ABCDEFGHIJKLMNOPQRSTUVWXYZabcdefghijklmnopqrstuvwxyz0123456789-_".data

/-- Character for a 6-bit value. -/
def b64c (n : ℕ) : Char := base64UrlAlphabet.getD n 'A'

/-- URL-safe base64 without padding (`general_purpose::URL_SAFE_NO_PAD`). -/
def base64UrlNoPad : List ℕ → String
  | [] => ""
  | [a] => String.mk [b64c (a / 4), b64c (a % 4 * 16)]
  | [a, b] => String.mk [b64c (a / 4), b64c (a % 4 * 16 + b / 16), b64c (b % 16 * 4)]
  | a :: b :: c :: rest =>
      String.mk [b64c (a / 4), b64c (a % 4 * 16 + b / 16),
        b64c (b % 16 * 4 + c / 64), b64c (c % 64)]
      ++ base64UrlNoPad rest

/-- UTF-8 encoding of one character (`str::as_bytes` acts on UTF-8 text). -/
def utf8EncodeChar (c : Char) : List ℕ :=
  let n := c.toNat
  if n < 0x80 then [n]
  else if n < 0x800 then [0xC0 + n / 64, 0x80 + n % 64]
  else if n < 0x10000 then [0xE0 + n / 4096, 0x80 + n / 64 % 64, 0x80 + n % 64]
  else [0xF0 + n / 262144, 0x80 + n / 4096 % 64, 0x80 + n / 64 % 64, 0x80 + n % 64]

/-- The UTF-8 bytes of a string (Rust `str::as_bytes`). -/
def strToBytes (s : String) : List ℕ := (s.data.map utf8EncodeChar).flatten

/-- The incremental SHA-256 hasher of the `sha2` crate, modelled by the
bytes absorbed so far. -/
structure Sha256Hasher where
  absorbed : List ℕ

/-- `Sha256::new()`. -/
def Sha256Hasher.new : Sha256Hasher := ⟨[]⟩

/-- `Digest::update`: absorb more bytes. -/
def Sha256Hasher.update (h : Sha256Hasher) (bytes : List ℕ) : Sha256Hasher :=
  ⟨h.absorbed ++ bytes⟩

/-- `Digest::finalize`: digest of everything absorbed. -/
def Sha256Hasher.finalize (h : Sha256Hasher) : List ℕ :=
  sha256 h.absorbed

/-- `generate_code_challenge` (src/claude.rs lines 128-134): hash the
verifier's bytes with an incremental SHA-256 hasher, then base64url-encode
the digest without padding. -/
def generate_code_challenge (code_verifier : String) : String :=
  let hasher := Sha256Hasher.new
  let hasher := hasher.update (strToBytes code_verifier)
  let hash := hasher.finalize
  base64UrlNoPad hash

/-- The spec's description of the challenge ("SHA-256 over the verifier's
raw bytes, URL-safe base64 without padding"), written independently of the
source's hasher calls, for the refinement theorem. -/
def challenge_from (verifier : String) : String :=
  base64UrlNoPad (sha256 (strToBytes verifier))

/-! ## Concrete documents used in evaluations -/

/-- A minimal valid usage body: the two required periods and the required
`extra_usage` record, nothing optional. -/
def minimalUsageBody : JsonVal :=
  .obj [("five_hour", .obj [("utilization", .num 42)]),
        ("seven_day", .obj [("utilization", .num 10)]),
        ("extra_usage", .obj [("is_enabled", .bool false)])]

/-- The snapshot `minimalUsageBody` parses to. -/
def minimalUsage : ClaudeUsageResponse :=
  ⟨⟨42, none⟩, ⟨10, none⟩, none, none, none, none, none,
   ⟨false, none, none, none⟩⟩

/-- A usage body holding only the two required periods, without the
`extra_usage` record. -/
def usageBodyTwoPeriodsOnly : JsonVal :=
  .obj [("five_hour", .obj [("utilization", .num 42)]),
        ("seven_day", .obj [("utilization", .num 10)])]

/-- The expired-token error envelope, parsed. -/
def expiredEnvelope : ClaudeErrorResponse :=
  ⟨"error",
   ⟨"authentication_error",
    "OAuth token has expired. Please obtain a new token or refresh your existing token.",
    ⟨"user"⟩⟩,
   "req_011CSHnxCoyqLvtdDRMnfr5"⟩

/-- The expired-token error envelope as a response body. -/
def expiredErrorBody : JsonVal :=
  .obj [("type", .str "error"),
        ("error", .obj
          [("type", .str "authentication_error"),
           ("message", .str "OAuth token has expired. Please obtain a new token or refresh your existing token."),
           ("details", .obj [("error_visibility", .str "user")])]),
        ("request_id", .str "req_011CSHnxCoyqLvtdDRMnfr5")]

/-! ## Supporting facts about the embedded primitives -/

/-- The embedded SHA-256 meets the FIPS 180-4 test vector for "abc". -/
theorem sha256_fips_vector_abc :
    sha256 (strToBytes "abc") =
      [0xba, 0x78, 0x16, 0xbf, 0x8f, 0x01, 0xcf, 0xea,
       0x41, 0x41, 0x40, 0xde, 0x5d, 0xae, 0x22, 0x23,
       0xb0, 0x03, 0x61, 0xa3, 0x96, 0x17, 0x7a, 0x9c,
       0xb4, 0x10, 0xff, 0x61, 0xf2, 0x00, 0x15, 0xad] := by decide

/-- The whole challenge pipeline meets the widely published value for the
verifier "test" (base64url, unpadded, of SHA-256 of "test"). -/
theorem code_challenge_test_vector :
    generate_code_challenge "test" = "n4bQgYhMfWWaL-qgxVrQFaO_TxsrC4Is0V1sFbDwCgg" := by
  decide

/-- serde round-trip of the credentials document. -/
theorem credentials_document_roundtrip (c : ClaudeCredentials) :
    deserializeClaudeCredentials (serializeClaudeCredentials c) = some c := rfl

/-! ## The claims -/

/-- C2 counterexample: the claim quantifies over bodies that contain only
the two required periods; such a body lacks the required `extra_usage`
field, so `serde_json::from_str::<ClaudeUsageResponse>` fails on it
instead of succeeding. -/
theorem claim2_counterexample :
    deserializeClaudeUsageResponse usageBodyTwoPeriodsOnly = none := by decide

/-- C2 (amended): a usage body with the two required periods, the required
`extra_usage` record (only its mandatory `is_enabled` flag), and none of
the optional sub-category windows parses successfully, and every optional
field of the result is `none`. -/
theorem claim2_minimal_body_parses (u1 u2 : ℚ) (b : Bool) :
    deserializeClaudeUsageResponse (.obj
      [("five_hour", .obj [("utilization", .num u1)]),
       ("seven_day", .obj [("utilization", .num u2)]),
       ("extra_usage", .obj [("is_enabled", .bool b)])])
    = some ⟨⟨u1, none⟩, ⟨u2, none⟩, none, none, none, none, none,
        ⟨b, none, none, none⟩⟩ := rfl

/-- C3: classification of a usage response body follows the exact order of
`get_usage`: a body parsing as a snapshot gives `Ok`; otherwise a body
parsing as an error envelope gives an error carrying that envelope;
otherwise an error with no envelope whose message carries the raw body —
always one of these three, never a panic or silent default. -/
theorem claim3_classification_order (status : ℕ) (body : JsonVal) :
    (∀ usage, deserializeClaudeUsageResponse body = some usage →
      get_usage_classify status body = .ok usage)
    ∧ (deserializeClaudeUsageResponse body = none →
        ∀ e, deserializeClaudeErrorResponse body = some e →
          get_usage_classify status body = .error ⟨api_error_message e, some e⟩)
    ∧ (deserializeClaudeUsageResponse body = none →
        deserializeClaudeErrorResponse body = none →
        get_usage_classify status body =
          .error ⟨unexpected_format_message body, none⟩) := by
  unfold get_usage_classify
  refine ⟨fun usage h => ?_, fun h1 e h2 => ?_, fun h1 h2 => ?_⟩
  · rw [h]
  · rw [h1, h2]
  · rw [h1, h2]

/-- C3 witness: the three branches at concrete bodies — a valid snapshot,
the expired-token envelope, and a plain string body. -/
theorem claim3_witness :
    get_usage_classify 200 minimalUsageBody = .ok minimalUsage
    ∧ get_usage_classify 200 expiredErrorBody =
        .error ⟨api_error_message expiredEnvelope, some expiredEnvelope⟩
    ∧ get_usage_classify 200 (.str "Internal Server Error") =
        .error ⟨unexpected_format_message (.str "Internal Server Error"), none⟩ :=
  ⟨(claim3_classification_order 200 minimalUsageBody).1 minimalUsage (by decide),
   (claim3_classification_order 200 expiredErrorBody).2.1 (by decide)
     expiredEnvelope (by decide),
   (claim3_classification_order 200 (.str "Internal Server Error")).2.2
     (by decide) (by decide)⟩

/-- C9: the classification of `get_usage` depends only on the body, never
on the HTTP status: any two statuses classify a body identically, so a
non-2xx response whose body is a valid snapshot is `Ok` and a 2xx response
whose body is an error envelope is an `Api` error. -/
theorem claim9_status_ignored (status status2 : ℕ) (body : JsonVal) :
    get_usage_classify status body = get_usage_classify status2 body
    ∧ (∀ usage, deserializeClaudeUsageResponse body = some usage →
        get_usage_classify status body = .ok usage)
    ∧ (deserializeClaudeUsageResponse body = none →
        ∀ e, deserializeClaudeErrorResponse body = some e →
          get_usage_classify status body = .error ⟨api_error_message e, some e⟩) := by
  unfold get_usage_classify
  refine ⟨rfl, fun usage h => ?_, fun h1 e h2 => ?_⟩
  · rw [h]
  · rw [h1, h2]

/-- C9 witness: a 403 response with a snapshot body is `Ok`; a 200 response
with the expired-token envelope body is an `Api` error. -/
theorem claim9_witness :
    get_usage_classify 403 minimalUsageBody = get_usage_classify 200 minimalUsageBody
    ∧ get_usage_classify 403 minimalUsageBody = .ok minimalUsage
    ∧ get_usage_classify 200 expiredErrorBody =
        .error ⟨api_error_message expiredEnvelope, some expiredEnvelope⟩ :=
  ⟨(claim9_status_ignored 403 200 minimalUsageBody).1,
   (claim9_status_ignored 403 200 minimalUsageBody).2.1 minimalUsage (by decide),
   (claim9_status_ignored 200 403 expiredErrorBody).2.2 (by decide)
     expiredEnvelope (by decide)⟩

/-- C4: whenever the state parameter extracted from the callback request
differs from the expected state, `wait_for_oauth_callback` returns the
state-mismatch error and never returns an authorization code. -/
theorem claim4_state_mismatch (expected_state request received : String)
    (hrecv : extract_param_from_url request "state" = .ok received)
    (hne : received ≠ expected_state) :
    (wait_for_oauth_callback expected_state request).result =
      .error "state value is not the same"
    ∧ ∀ code, (wait_for_oauth_callback expected_state request).result ≠ .ok code := by
  have hmain : (wait_for_oauth_callback expected_state request).result =
      .error "state value is not the same" := by
    unfold wait_for_oauth_callback
    rw [hrecv]
    simp [hne]
  exact ⟨hmain, fun code hcode => by rw [hmain] at hcode; exact Except.noConfusion hcode⟩

/-- C4 witness: expected state "aaa" against a callback carrying state
"bbb" is rejected. -/
theorem claim4_witness :
    (wait_for_oauth_callback "aaa" "GET /callback?state=bbb&code=C HTTP/1.1").result =
      .error "state value is not the same"
    ∧ ∀ code,
        (wait_for_oauth_callback "aaa" "GET /callback?state=bbb&code=C HTTP/1.1").result
          ≠ .ok code :=
  claim4_state_mismatch "aaa" "GET /callback?state=bbb&code=C HTTP/1.1" "bbb"
    (by decide) (by decide)

/-- C5: with expected state "abc123" and the request line
`GET /callback?state=abc123&code=XYZ HTTP/1.1`, the callback receiver
returns the authorization code "XYZ". -/
theorem claim5_login_scenario :
    (wait_for_oauth_callback "abc123" "GET /callback?state=abc123&code=XYZ HTTP/1.1").result
      = .ok "XYZ" := by decide

/-- C10: the success response is written only after the state and code
parameters have both been extracted and the state has been validated; on
any error the callback returns without having written anything. -/
theorem claim10_validate_before_respond (expected_state request : String) :
    ((wait_for_oauth_callback expected_state request).written ≠ [] →
      ∃ code, extract_param_from_url request "state" = .ok expected_state
        ∧ extract_param_from_url request "code" = .ok code
        ∧ (wait_for_oauth_callback expected_state request).result = .ok code
        ∧ (wait_for_oauth_callback expected_state request).written = [oauthSuccessResponse])
    ∧ (∀ msg, (wait_for_oauth_callback expected_state request).result = .error msg →
        (wait_for_oauth_callback expected_state request).written = []) := by
  unfold wait_for_oauth_callback
  rcases hstate : extract_param_from_url request "state" with e | received
  · simp
  · by_cases heq : received = expected_state
    · subst heq
      simp only [bne_self_eq_false, Bool.false_eq_true, if_false]
      rcases hcode : extract_param_from_url request "code" with e | code
      · simp
      · exact ⟨fun _ => ⟨code, by trivial, by trivial, by trivial, by trivial⟩,
          fun msg hmsg => Except.noConfusion hmsg⟩
    · simp [heq]

/-- C10 witness: the success path writes exactly the fixed response after
validation, and a mismatched callback writes nothing. -/
theorem claim10_witness :
    (∃ code,
      extract_param_from_url "GET /callback?state=abc123&code=XYZ HTTP/1.1" "state"
        = .ok "abc123"
      ∧ extract_param_from_url "GET /callback?state=abc123&code=XYZ HTTP/1.1" "code"
        = .ok code
      ∧ (wait_for_oauth_callback "abc123" "GET /callback?state=abc123&code=XYZ HTTP/1.1").result
        = .ok code
      ∧ (wait_for_oauth_callback "abc123" "GET /callback?state=abc123&code=XYZ HTTP/1.1").written
        = [oauthSuccessResponse])
    ∧ (wait_for_oauth_callback "aaa" "GET /callback?state=bbb&code=C HTTP/1.1").written = [] :=
  ⟨(claim10_validate_before_respond "abc123"
      "GET /callback?state=abc123&code=XYZ HTTP/1.1").1 (by decide),
   (claim10_validate_before_respond "aaa" "GET /callback?state=bbb&code=C HTTP/1.1").2
     "state value is not the same" (by decide)⟩

/-- C6: saving a token response and loading again yields exactly the
saved `access_token` and `refresh_token`. -/
theorem claim6_credentials_roundtrip (t : AnthropicTokenResponse)
    (fs fs2 : FsState) (hsave : save_credentials_locally t fs = .ok fs2) :
    get_local_credentials fs2 = .ok ⟨t.access_token, t.refresh_token⟩ := by
  rcases fs with ⟨home, file⟩
  cases home with
  | none => exact Except.noConfusion hsave
  | some h =>
    have hfs2 : fs2 = ⟨some h, some (serializeClaudeCredentials
        ⟨t.access_token, t.refresh_token⟩)⟩ := (Except.ok.inj hsave).symm
    subst hfs2
    rfl

/-- C6 witness: a concrete round-trip through the modelled store. -/
theorem claim6_witness :
    get_local_credentials
      ⟨some "/home/user", some (serializeClaudeCredentials ⟨"tokA", "tokR"⟩)⟩
      = .ok ⟨"tokA", "tokR"⟩ :=
  claim6_credentials_roundtrip
    ⟨"tokA", "tokR", 3600, "Bearer", ⟨"org-uuid", "Org"⟩, ⟨"acc-uuid", "user@example.com"⟩⟩
    ⟨some "/home/user", none⟩ _ rfl

/-- C7: the code challenge is the URL-safe unpadded base64 encoding of the
SHA-256 digest of the verifier's UTF-8 bytes, and the function is
deterministic (a pure function of the verifier; repeated calls agree). -/
theorem claim7_code_challenge (verifier : String) :
    generate_code_challenge verifier = base64UrlNoPad (sha256 (strToBytes verifier))
    ∧ generate_code_challenge verifier = challenge_from verifier
    ∧ generate_code_challenge verifier = generate_code_challenge verifier :=
  ⟨rfl, rfl, rfl⟩

/-- C8: the monitoring loop is uniform and never terminates: every
iteration — success or any failure — sends exactly one message, sleeps the
same fixed 300 seconds, and continues with the next poll; the trace is
total in the iteration index. -/
theorem claim8_loop_never_stops
    (results : ℕ → Except GetUsageError ClaudeUsageResponse) (n : ℕ) :
    (claude_usage_monitoring results n).control = .cont
    ∧ (claude_usage_monitoring results n).sleep_seconds = 300
    ∧ (claude_usage_monitoring results n).sent.length = 1 := by
  unfold claude_usage_monitoring claude_monitor_step
  cases results n with
  | ok usage => exact ⟨rfl, rfl, rfl⟩
  | error e => exact ⟨rfl, rfl, rfl⟩

set_option maxRecDepth 4000 in
/-- C1: evaluation of the monitoring-loop iteration on a poll whose body is
the expired-token error envelope.  The code prints the envelope to stdout
and sends exactly one message — `ThrowError` — on the channel; no
refresh-needed (`RefreshToken`) event is ever sent, contradicting the
claim (the `Message::RefreshToken` handler in src/app.rs is unreachable). -/
theorem claim1_no_refresh_event :
    (claude_monitor_step (get_usage_classify 401 expiredErrorBody)).sent
      = [.throwError (api_error_message expiredEnvelope)]
    ∧ AppMessage.refreshToken ∉
        (claude_monitor_step (get_usage_classify 401 expiredErrorBody)).sent
    ∧ (claude_monitor_step (get_usage_classify 401 expiredErrorBody)).printed
      = [expiredEnvelope]
    ∧ (claude_monitor_step (get_usage_classify 401 expiredErrorBody)).control
      = .cont := by decide
